import Mathlib

/-!
Verification development for the zv/sexpr S-expression library.

The Rust sources are shallowly embedded below:
  * `number.rs`  — the `Number` tagged union and its classification predicates;
  * `lib.rs`     — the parser-facing `Sexp` enum, `new_pair`, and `Display`;
  * `config.rs`  — `ParseConfig` and the `STANDARD` configuration value;
  * `error.rs`   — `ErrorCode` / `ParserError`;
  * `parse.rs`   — the recursive-descent parser, embedded as a fuel-indexed
    interpreter over an explicit parser state.  Fuel exhaustion is a distinct
    outcome (`oot`); a run that yields `oot` for every fuel value is a
    non-terminating execution of the Rust code.  Rust panics
    (`unreachable!()`, out-of-bounds `Vec` indexing, `Option::unwrap` on
    `None`) are the distinct outcome `panicked`.
  * `sexp/mod.rs` — the second `Sexp` enum (with `Nil` and `Number`) and its
    `car` / `cdr` / `new_pair` accessors;
  * `sexp/de.rs`  — the `deserialize_any` dispatch for owned and borrowed
    values, with the serde visitor abstracted as explicit functions;
  * `serializer.rs`, `sexp/ser.rs`, `encode.rs` — the three float encoders.

Machine floats (`f64`) are modelled as exact decimal data: `NaN`, `±∞`, or a
finite decimal `m·10⁻ᵉ`.  This captures exactly the aspects the code uses:
finiteness classification (`f64::is_finite`) and decimal rendering for the
values appearing in the claims (Rust's `Display` for `f64` prints `NaN`,
`inf`, `-inf`, and finite values without a forced trailing `.0`).
-/

namespace Sexpr

/-- Model of Rust `f64`: `NaN`, the two infinities, or a finite decimal
value `m / 10 ^ e`.  `finite m e` is not required to be canonical; rendering
canonicalises, mirroring how distinct bit patterns print a shortest form. -/
inductive F64 where
  | nan
  | inf
  | neginf
  | finite (m : Int) (e : Nat)
deriving DecidableEq

/-- Model of `f64::is_finite`. -/
def F64.isFinite : F64 → Bool
  | .finite _ _ => true
  | _ => false

/-- Decimal digits of a natural number, most significant first. -/
def natToChars (n : Nat) : List Char :=
  Nat.toDigits 10 n

/-- Model of Rust's `Display` for `i64`/`u64`: optional minus sign and
decimal digits. -/
def intToChars (i : Int) : List Char :=
  if i < 0 then '-' :: natToChars i.natAbs else natToChars i.toNat

/-- Strip factors of ten that are cancelled by the exponent, so that
`canonDec m e` is the canonical representation of `m / 10 ^ e`. -/
def canonDec : Int → Nat → Int × Nat
  | m, 0 => (m, 0)
  | m, e + 1 => if m % 10 = 0 then canonDec (m / 10) e else (m, e + 1)

/-- Render the canonical pair `(m, e)` (meaning `m / 10 ^ e`) as decimal
text with `e` digits after the point. -/
def decToChars (m : Int) (e : Nat) : List Char :=
  if e = 0 then intToChars m
  else
    let ds := natToChars m.natAbs
    let ds := List.replicate (e + 1 - ds.length) '0' ++ ds
    let whole := ds.take (ds.length - e)
    let frac := ds.drop (ds.length - e)
    (if m < 0 then ['-'] else []) ++ whole ++ '.' :: frac

/-- Model of Rust's `Display`/`to_string` for `f64` on the values this
development uses: `NaN`, `inf`, `-inf`, and exact decimals rendered in their
shortest form (`1.0` prints as `1`, `1.5` as `1.5`). -/
def F64.toChars : F64 → List Char
  | .nan => ("NaN").data
  | .inf => ("inf").data
  | .neginf => ("-inf").data
  | .finite m e =>
    let c := canonDec m e
    decToChars c.1 c.2

/-- Parse an unsigned run of decimal digits (`none` if empty or if any
character is not a digit). -/
def parseDigitsNat (cs : List Char) : Option Nat :=
  if cs = [] then none
  else
    cs.foldl
      (fun acc c =>
        acc.bind fun n =>
          if '0' ≤ c ∧ c ≤ '9' then some (n * 10 + (c.toNat - ('0').toNat)) else none)
      (some 0)

/-- Model of Rust `str::parse::<i64>`: optional sign, decimal digits, and
failure on overflow past the `i64` range. -/
def parseI64Lit (cs : List Char) : Option Int :=
  match cs with
  | '-' :: rest =>
    (parseDigitsNat rest).bind fun n =>
      if (n : Int) ≤ 2 ^ 63 then some (-(n : Int)) else none
  | '+' :: rest =>
    (parseDigitsNat rest).bind fun n =>
      if (n : Int) < 2 ^ 63 then some (n : Int) else none
  | _ =>
    (parseDigitsNat cs).bind fun n =>
      if (n : Int) < 2 ^ 63 then some (n : Int) else none

/-- Model of Rust `str::parse::<f64>` restricted to the decimal literals the
parser can produce: optional sign, digits, at most one point, at least one
digit overall.  The value is kept as an exact decimal. -/
def parseF64Lit (cs : List Char) : Option F64 :=
  let core : List Char → Option F64 := fun body =>
    match body.splitOn '.' with
    | [whole] => (parseDigitsNat whole).map fun n => F64.finite (n : Int) 0
    | [whole, frac] =>
      if whole = [] ∧ frac = [] then none
      else
        (parseDigitsNat (whole ++ frac)).map fun n => F64.finite (n : Int) frac.length
    | _ => none
  match cs with
  | '-' :: rest => (core rest).map fun f =>
      match f with
      | .finite m e => F64.finite (-m) e
      | f => f
  | '+' :: rest => core rest
  | _ => core cs

/-! ## `number.rs` : the `Number` type -/

/-- The payload union of `number.rs` (`N`): `U64`, `I64` (negative by
construction), `F64` (finite by construction). -/
inductive N where
  | U64 (v : Nat)
  | I64 (v : Int)
  | F64 (f : F64)
deriving DecidableEq

/-- `Number` wraps `N`, as in `number.rs`. -/
structure Number where
  n : N
deriving DecidableEq

/-- `i64::MAX` as a natural number. -/
def i64MaxNat : Nat := 9223372036854775807

/-- `Number::is_i64` from `number.rs`. -/
def Number.is_i64 (x : Number) : Bool :=
  match x.n with
  | .U64 v => v ≤ i64MaxNat
  | .I64 _ => true
  | .F64 _ => false

/-- `Number::is_u64` from `number.rs`. -/
def Number.is_u64 (x : Number) : Bool :=
  match x.n with
  | .U64 _ => true
  | .I64 _ => false
  | .F64 _ => false

/-- `Number::is_f64` from `number.rs`. -/
def Number.is_f64 (x : Number) : Bool :=
  match x.n with
  | .F64 _ => true
  | .U64 _ => false
  | .I64 _ => false

/-- `Number::from_f64` from `number.rs`: only finite floats yield a value. -/
def Number.from_f64 (f : F64) : Option Number :=
  if f.isFinite then some ⟨.F64 f⟩ else none

/-- The `from_signed!` conversion of `number.rs` at the `i64` instance: the
signed arm is chosen only for negative inputs, otherwise the value is cast
to `u64` (value-preserving for non-negative inputs). -/
def Number.from_i64 (i : Int) : Number :=
  if i < 0 then ⟨.I64 i⟩ else ⟨.U64 i.toNat⟩

/-- The `from_unsigned!` conversion of `number.rs` at the `u64` instance. -/
def Number.from_u64 (u : Nat) : Number :=
  ⟨.U64 u⟩

/-! ## `lib.rs` : the parser-facing `Sexp` enum -/

/-- The `Sexp` enum of `lib.rs`: the type produced by `parse.rs` and
rendered by the `Display` impl of `lib.rs`.  A cons cell
(`Option<Rc<Sexp>>`) is embedded as `Option Sexp`; `Rc` sharing is
irrelevant to the derived structural equality. -/
inductive Sexp where
  | Symbol (s : String)
  | String (s : String)
  | Keyword (s : String)
  | I64 (v : Int)
  | U64 (v : Nat)
  | F64 (f : F64)
  | Boolean (b : Bool)
  | Pair (car cdr : Option Sexp)
  | List (elts : List Sexp)

/-- `Sexp::new_pair` from `lib.rs`: the car slot is always occupied; the cdr
slot is emptied exactly when `cdr` is a `List` of length zero. -/
def Sexp.new_pair (car cdr : Sexp) : Sexp :=
  let r_cdr : Option Sexp :=
    match cdr with
    | .List elts => if elts.length = 0 then none else some cdr
    | _ => some cdr
  .Pair (some car) r_cdr

/-- The space-separating fold used by the `List` arm of `Display` in
`lib.rs`. -/
def joinSpace (l : List (List Char)) : List Char :=
  l.foldl (fun a b => (if a.length > 0 then a ++ [' '] else a) ++ b) []

/-- The `Display` impl for `Sexp` in `lib.rs`, with explicit fuel so that
the nested recursion is structural.  Fuel larger than the tree depth never
changes the output. -/
def displayF : Nat → Sexp → List Char
  | 0, _ => []
  | fuel + 1, v =>
    match v with
    | .Symbol s => s.data
    | .Keyword s => s.data
    | .String s => '"' :: s.data ++ ['"']
    | .F64 f => f.toChars
    | .I64 i => intToChars i
    | .U64 u => natToChars u
    | .Boolean true => ['#', 't']
    | .Boolean false => ['#', 'f']
    | .List elts => '(' :: joinSpace (elts.map (fun e => displayF fuel e)) ++ [')']
    | .Pair (some car) (some cdr) =>
      '(' :: displayF fuel car ++ [' ', '.', ' '] ++ displayF fuel cdr ++ [')']
    | .Pair (some car) none => '(' :: displayF fuel car ++ [')']
    | .Pair none (some cdr) => '(' :: ("() . ").data ++ displayF fuel cdr ++ [')']
    | .Pair none none => ("(())").data

/-! ## `error.rs` and `config.rs` -/

/-- `ErrorCode` from `error.rs`. -/
inductive ErrorCode where
  | InvalidSyntax
  | InvalidAtom
  | InvalidNumber
  | InvalidEscape
  | UnbalancedClosingParen
  | MissingCloseParen
  | UnrecognizedBase64
  | UnrecognizedHex
  | UnexpectedEndOfHexEscape
  | UnexpectedEndOfList
  | EOFWhileParsingAtom
  | EOFWhileParsingList
  | EOFWhileParsingValue
  | EOFWhileParsingNumeric
  | EOFWhileParsingString
  | ControlCharacterInString
  | TrailingCharacters
deriving DecidableEq

/-- `ParserError` from `error.rs`: an error code with 1-based line and the
column at which the error was raised. -/
inductive ParserError where
  | SyntaxError (code : ErrorCode) (line col : Nat)
deriving DecidableEq

/-- `ParsePipeBehavior` from `config.rs`. -/
inductive ParsePipeBehavior where
  | Base64Interior
  | QuoteInterior
  | None
deriving DecidableEq

/-- `ParseConfig` from `config.rs`. -/
structure ParseConfig where
  semi_comments : Bool
  case_sensitive_atoms : Bool
  square_brackets : Bool
  pipe_action : ParsePipeBehavior
  hex_escapes : Bool
  radix_escape : Bool
  colon_keywords : Bool
deriving DecidableEq

/-- The `STANDARD` configuration value of `config.rs`. -/
def STANDARD : ParseConfig where
  semi_comments := true
  case_sensitive_atoms := false
  square_brackets := true
  pipe_action := .None
  hex_escapes := true
  radix_escape := false
  colon_keywords := true

/-! ## `parse.rs` : the recursive-descent parser -/

/-- The `Parser` state of `parse.rs`: the remaining character stream, the
lookahead character (`None` at end of stream), the 1-based position, and the
configuration. -/
structure Parser where
  reader : List Char
  ch : Option Char
  line : Nat
  col : Nat
  config : ParseConfig
deriving DecidableEq

/-- Outcome of running a parser function with a given amount of fuel:
normal return with the updated state, an error return (`Err` of the Rust
`Result`), a Rust panic, or fuel exhaustion (`oot`, "out of time"). -/
inductive POut (α : Type) where
  | ok (a : α) (s : Parser)
  | err (e : ParserError)
  | panicked
  | oot

/-- Sequencing of parser outcomes: errors, panics and fuel exhaustion
abort, mirroring `?` propagation in the Rust source. -/
def POut.andThen : POut α → (α → Parser → POut β) → POut β
  | .ok a s, f => f a s
  | .err e, _ => .err e
  | .panicked, _ => .panicked
  | .oot, _ => .oot

/-- A parser outcome with the final state forgotten, for stating
whole-input facts. -/
inductive PRes (α : Type) where
  | ok (a : α)
  | err (e : ParserError)
  | panicked
  | oot

/-- Forget the final parser state of an outcome. -/
def POut.res : POut α → PRes α
  | .ok a _ => .ok a
  | .err e => .err e
  | .panicked => .panicked
  | .oot => .oot

/-- The state-advancing core of `Parser::bump`: pull the next character off
the reader and update the position (`\n` resets the column and bumps the
line; the comment handling of `bump` lives in `bumpCom`). -/
def Parser.bumpRaw (p : Parser) : Parser :=
  let c := p.reader.head?
  let p' : Parser := { p with reader := p.reader.tail, ch := c }
  if c = some '\n' then { p' with line := p.line + 1, col := 1 }
  else { p' with col := p.col + 1 }

/-- `Parser::bump` (mode `false`) and `Parser::parse_comment` (mode `true`)
from `parse.rs`, combined into one fuel-indexed function because they are
mutually recursive: `bump` invokes `parse_comment` when `semi_comments` is
set and the new lookahead is `;`, and `parse_comment` repeatedly invokes
the full `bump` until the lookahead is a newline.  Note that
`parse_comment`'s loop condition never holds at end of stream, where the
lookahead stays `None`. -/
def bumpCom : Nat → Bool → Parser → POut Unit
  | fuel, false, p =>
    let p' := p.bumpRaw
    if p'.config.semi_comments ∧ p'.ch = some ';' then
      match fuel with
      | 0 => .oot
      | n + 1 => bumpCom n true p'
    else .ok () p'
  | fuel, true, p =>
    if p.ch = some '\n' then .ok () p
    else
      match fuel with
      | 0 => .oot
      | n + 1 => (bumpCom n false p).andThen fun _ s => bumpCom n true s

/-- `Parser::bump` from `parse.rs`. -/
def Parser.bump (fuel : Nat) (p : Parser) : POut Unit :=
  bumpCom fuel false p

/-- `Parser::parse_comment` from `parse.rs`. -/
def Parser.parse_comment (fuel : Nat) (p : Parser) : POut Unit :=
  bumpCom fuel true p

/-- `Parser::parse_whitespace` from `parse.rs`: bump while the lookahead is
a space, newline, tab or carriage return. -/
def Parser.parse_whitespace : Nat → Parser → POut Unit
  | fuel, p =>
    if p.ch = some ' ' ∨ p.ch = some '\n' ∨ p.ch = some '\t' ∨ p.ch = some '\r' then
      match fuel with
      | 0 => .oot
      | n + 1 => (p.bump n).andThen fun _ s => Parser.parse_whitespace n s
    else .ok () p

/-- `Parser::ch_or_null`: the lookahead with `None` collapsed to the NUL
sentinel. -/
def Parser.chOrNull (p : Parser) : Char :=
  p.ch.getD '\x00'

/-- The accumulation loop of `Parser::parse_symbol`: push the current
character and bump, stopping at a terminator.  Faithful to the Rust match,
whose guard `if self.config.square_brackets` covers the whole terminator
alternative list. -/
def parseSymbolLoop : Nat → Parser → List Char → POut (List Char)
  | fuel, p, acc =>
    let c := p.chOrNull
    if (c = '\t' ∨ c = ' ' ∨ c = '\n' ∨ c = ')' ∨ c = '\x00' ∨ c = ']')
        ∧ p.config.square_brackets then
      .ok acc p
    else
      match fuel with
      | 0 => .oot
      | n + 1 => (p.bump n).andThen fun _ s => parseSymbolLoop n s (acc ++ [c])

/-- `Parser::parse_symbol` from `parse.rs`: `none` for a zero-length
result. -/
def Parser.parse_symbol (fuel : Nat) (p : Parser) : POut (Option String) :=
  (parseSymbolLoop fuel p []).andThen fun acc s =>
    if acc.length > 0 then .ok (some (String.mk acc)) s else .ok none s

/-- `Parser::parse_atom` from `parse.rs`. -/
def Parser.parse_atom (fuel : Nat) (p : Parser) : POut Sexp :=
  (p.parse_symbol fuel).andThen fun r s =>
    match r with
    | some atom => .ok (.Symbol atom) s
    | none => .err (.SyntaxError .InvalidAtom s.line s.col)

/-- `Parser::parse_keyword` from `parse.rs`: identical to `parse_atom` but
tags the result as a `Keyword`. -/
def Parser.parse_keyword (fuel : Nat) (p : Parser) : POut Sexp :=
  (p.parse_symbol fuel).andThen fun r s =>
    match r with
    | some atom => .ok (.Keyword atom) s
    | none => .err (.SyntaxError .InvalidAtom s.line s.col)

/-- The scanning loop of `Parser::parse_string`: each iteration bumps, then
branches on the escape flag.  The `None => unreachable!()` arm of the
non-escape branch is the `panicked` outcome. -/
def parseStringLoop : Nat → Parser → List Char → Bool → POut Sexp
  | fuel, p, acc, escape =>
    match fuel with
    | 0 => .oot
    | n + 1 =>
      (p.bump n).andThen fun _ s =>
        if escape then
          match s.ch with
          | some '"' => parseStringLoop n s (acc ++ ['"']) false
          | some '\\' => parseStringLoop n s (acc ++ ['\\']) false
          | some '/' => parseStringLoop n s (acc ++ ['/']) false
          | some 'b' => parseStringLoop n s (acc ++ ['\x08']) false
          | some 'f' => parseStringLoop n s (acc ++ ['\x0c']) false
          | some 'n' => parseStringLoop n s (acc ++ ['\n']) false
          | some 'r' => parseStringLoop n s (acc ++ ['\r']) false
          | some 't' => parseStringLoop n s (acc ++ ['\t']) false
          | some _ => .err (.SyntaxError .InvalidEscape s.line s.col)
          | none => .err (.SyntaxError .UnexpectedEndOfHexEscape s.line s.col)
        else if s.ch = some '\\' then parseStringLoop n s acc true
        else
          match s.ch with
          | some '"' => (s.bump n).andThen fun _ s' => .ok (.String (String.mk acc)) s'
          | some c =>
            if c ≤ '\x1f' then .err (.SyntaxError .ControlCharacterInString s.line s.col)
            else parseStringLoop n s (acc ++ [c]) false
          | none => .panicked

/-- `Parser::parse_string` from `parse.rs` (entered with the lookahead on
the opening quote). -/
def Parser.parse_string (fuel : Nat) (p : Parser) : POut Sexp :=
  parseStringLoop fuel p [] false

/-- The accumulation loop of `Parser::parse_numeric`: the float flag is
(re)checked against the current lookahead before each advance; digits and
points are accumulated, any other character stops the loop, and end of
stream is `EOFWhileParsingNumeric`. -/
def parseNumericLoop : Nat → Parser → List Char → Bool → POut (List Char × Bool)
  | fuel, p, acc, is_float =>
    let is_float := is_float || p.ch = some '.'
    match fuel with
    | 0 => .oot
    | n + 1 =>
      (p.bump n).andThen fun _ s =>
        match s.ch with
        | some c =>
          if c = '.' ∨ ('0' ≤ c ∧ c ≤ '9') then parseNumericLoop n s (acc ++ [c]) is_float
          else .ok (acc, is_float) s
        | none => .err (.SyntaxError .EOFWhileParsingNumeric s.line s.col)

/-- `Parser::parse_numeric` from `parse.rs` (`self.ch.unwrap()` on an empty
lookahead is a panic). -/
def Parser.parse_numeric (fuel : Nat) (p : Parser) : POut Sexp :=
  match p.ch with
  | none => .panicked
  | some c0 =>
    (parseNumericLoop fuel p [c0] false).andThen fun r s =>
      if r.2 then
        match parseF64Lit r.1 with
        | some f => .ok (.F64 f) s
        | none => .err (.SyntaxError .InvalidNumber s.line s.col)
      else
        match parseI64Lit r.1 with
        | some i => .ok (.I64 i) s
        | none => .err (.SyntaxError .InvalidNumber s.line s.col)

/-- The digit loop of `Parser::parse_hexadecimal`, including its
radix-unaware accumulation `acc = acc * 10 + digit` and the
`None => unreachable!()` arm (reachable when the last reader character is
consumed inside the loop). -/
def parseHexLoop : Nat → Parser → Nat → Nat → POut Sexp
  | fuel, p, acc, len =>
    if p.ch = none then
      if len = 0 then .err (.SyntaxError .UnexpectedEndOfHexEscape p.line p.col)
      else .ok (.U64 acc) p
    else
      match fuel with
      | 0 => .oot
      | n + 1 =>
        (p.bump n).andThen fun _ s =>
          match s.ch with
          | some c =>
            if '0' ≤ c ∧ c ≤ '9' then
              parseHexLoop n s (acc * 10 + (c.toNat - ('0').toNat)) (len + 1)
            else if 'a' ≤ c ∧ c ≤ 'f' then
              parseHexLoop n s (acc * 10 + (c.toNat - ('a').toNat + 10)) (len + 1)
            else if 'A' ≤ c ∧ c ≤ 'F' then
              parseHexLoop n s (acc * 10 + (c.toNat - ('A').toNat + 10)) (len + 1)
            else if c = ' ' ∨ c = '\t' ∨ c = '\n' ∨ c = ')' then
              if len = 0 then .err (.SyntaxError .UnexpectedEndOfHexEscape s.line s.col)
              else .ok (.U64 acc) s
            else .err (.SyntaxError .InvalidNumber s.line s.col)
          | none => .panicked

/-- `Parser::parse_hexadecimal` from `parse.rs`: requires an `x` marker,
then runs the digit loop. -/
def Parser.parse_hexadecimal (fuel : Nat) (p : Parser) : POut Sexp :=
  match fuel with
  | 0 => .oot
  | n + 1 =>
    (p.bump n).andThen fun _ s =>
      if s.ch = some 'x' then parseHexLoop n s 0 0
      else .err (.SyntaxError .UnrecognizedHex s.line s.col)

/-- Call descriptor for the mutually recursive pair
`parse_value` / `parse_list`: `list opening res` is an iteration of the
`parse_list` loop with opening bracket `opening` and elements `res`
collected so far. -/
inductive PCall where
  | value
  | list (opening : Char) (res : List Sexp)

/-- `Parser::parse_value` and `Parser::parse_list` from `parse.rs` as one
fuel-indexed interpreter.  Faithful points worth noting: the bracket arm of
`parse_value` and the terminator arms of `parse_list` are guarded exactly
as in the Rust match; the dotted-pair arm pushes one parsed value, demands
a literal `)` (never `]`), and then builds
`new_pair(&result[0], &result[1])`, which is an out-of-bounds panic when
fewer than two elements were collected. -/
def Parser.run : Nat → PCall → Parser → POut Sexp
  | 0, _, _ => .oot
  | n + 1, .value, p =>
    if p.ch = none then .err (.SyntaxError .EOFWhileParsingValue p.line p.col)
    else
      (p.parse_whitespace n).andThen fun _ s =>
        let c := s.chOrNull
        if (c = '(' ∨ c = '[') ∧ s.config.square_brackets then
          (s.bump n).andThen fun _ s' => Parser.run n (.list c []) s'
        else if c = ')' then .err (.SyntaxError .UnexpectedEndOfList s.line s.col)
        else if c = '-' ∨ ('0' ≤ c ∧ c ≤ '9') then s.parse_numeric n
        else if c = '"' then s.parse_string n
        else if c = '#' ∧ s.config.hex_escapes then s.parse_hexadecimal n
        else if c = ':' ∧ s.config.colon_keywords then s.parse_keyword n
        else if c = '\x00' then .err (.SyntaxError .EOFWhileParsingValue s.line s.col)
        else s.parse_atom n
  | n + 1, .list op res, p =>
    (p.parse_whitespace n).andThen fun _ s =>
      let c := s.chOrNull
      if c = '.' then
        (s.bump n).andThen fun _ s₁ =>
          (Parser.run n .value s₁).andThen fun v s₂ =>
            let res' := res ++ [v]
            match s₂.ch with
            | some ')' =>
              (s₂.bump n).andThen fun _ s₃ =>
                if 2 ≤ res'.length then
                  .ok (Sexp.new_pair (res'.getD 0 (.List [])) (res'.getD 1 (.List []))) s₃
                else .panicked
            | _ => .err (.SyntaxError .MissingCloseParen s₂.line s₂.col)
      else if c = ')' ∨ c = ']' then
        if (c = ')' ∧ op = '[') ∨ (s.config.square_brackets ∧ c = ']' ∧ op = '(') then
          .err (.SyntaxError .UnbalancedClosingParen s.line s.col)
        else (s.bump n).andThen fun _ s' => .ok (.List res) s'
      else if c = '\x00' then .err (.SyntaxError .EOFWhileParsingList s.line s.col)
      else
        (Parser.run n .value s).andThen fun v s' =>
          if s'.ch = none then .ok (.List (res ++ [v])) s'
          else Parser.run n (.list op (res ++ [v])) s'

/-- `Parser::parse_value`. -/
def Parser.parse_value (fuel : Nat) (p : Parser) : POut Sexp :=
  Parser.run fuel .value p

/-- `Parser::parse_list` (one loop iteration with accumulated elements). -/
def Parser.parse_list (fuel : Nat) (opening : Char) (res : List Sexp) (p : Parser) : POut Sexp :=
  Parser.run fuel (.list opening res) p

/-- The state built by `Parser::new` before its initial `bump`: NUL
lookahead, line 1, column 0, the `STANDARD` configuration. -/
def Parser.init (input : List Char) : Parser :=
  ⟨input, some '\x00', 1, 0, STANDARD⟩

/-- `Sexp::from_str` of `lib.rs`: `Parser::new` (whose constructor performs
the initial `bump`) followed by `parse`, which is `parse_value`. -/
def from_str (fuel : Nat) (input : List Char) : POut Sexp :=
  ((Parser.init input).bump fuel).andThen fun _ p => Parser.run fuel .value p

/-! ## Rust panics outside the parser -/

/-- Outcome of a Rust computation that can panic (`unimplemented!()`,
out-of-bounds `Vec` indexing) but has no other effect. -/
inductive PanicOr (α : Type) where
  | panicked
  | value (a : α)
deriving DecidableEq

/-! ## `sexp/mod.rs` : the second `Sexp` enum -/

namespace SexpMod

/-- The `Sexp` enum of `sexp/mod.rs`: the `lib.rs` shape with the numeric
variants folded into `Number` and an explicit `Nil`. -/
inductive Sexp where
  | Nil
  | Symbol (s : String)
  | String (s : String)
  | Keyword (s : String)
  | Number (n : Sexpr.Number)
  | Boolean (b : Bool)
  | Pair (car cdr : Option Sexp)
  | List (elts : List Sexp)

/-- `Sexp::car` from `sexp/mod.rs`: `Some(elts[0].clone())` on a `List`
(an out-of-bounds panic when the list is empty), `None` on anything
else. -/
def Sexp.car : Sexp → PanicOr (Option Sexp)
  | .List [] => .panicked
  | .List (x :: _) => .value (some x)
  | _ => .value none

/-- `Sexp::cdr` from `sexp/mod.rs`: `Some(elts[1].clone())` on a `List`
(an out-of-bounds panic when the list has fewer than two elements), `None`
on anything else. -/
def Sexp.cdr : Sexp → PanicOr (Option Sexp)
  | .List [] => .panicked
  | .List [_] => .panicked
  | .List (_ :: y :: _) => .value (some y)
  | _ => .value none

/-- `Sexp::new_pair` from `sexp/mod.rs` (same body as the `lib.rs`
version). -/
def Sexp.new_pair (car cdr : Sexp) : Sexp :=
  let r_cdr : Option Sexp :=
    match cdr with
    | .List elts => if elts.length = 0 then none else some cdr
    | _ => some cdr
  .Pair (some car) r_cdr

end SexpMod

/-! ## `sexp/de.rs` : deserialization dispatch -/

/-- Deserialization errors: `invalid_length(len, expectation)` as raised by
the sequence adapters, or any other serde error. -/
inductive DeError where
  | invalidLength (len : Nat) (expected : String)
  | message (msg : String)
deriving DecidableEq

/-- A serde visitor, abstracted to what `deserialize_any` can invoke.  The
sequence callback consumes elements from the front of the list (via the
adapter's `next_element_seed`) and is modelled as returning its result
together with the elements it did not consume. -/
structure Visitor (α : Type) where
  visitUnit : Except DeError α
  visitBool : Bool → Except DeError α
  visitString : String → Except DeError α
  visitNumber : Number → Except DeError α
  visitSeq : List SexpMod.Sexp → Except DeError (α × List SexpMod.Sexp)

/-- `<Sexp as Deserializer>::deserialize_any` from `sexp/de.rs` (the owning
impl): dispatch on the variant; the `Pair` arm is `unimplemented!()`; the
`List` arm drives the sequence adapter and, after the visitor returns,
fails with `invalid_length` naming the original length unless every element
was consumed. -/
def deserialize_any (v : SexpMod.Sexp) (vis : Visitor α) : PanicOr (Except DeError α) :=
  match v with
  | .Nil => .value vis.visitUnit
  | .Boolean b => .value (vis.visitBool b)
  | .Number n => .value (vis.visitNumber n)
  | .String s => .value (vis.visitString s)
  | .Keyword k => .value (vis.visitString k)
  | .Symbol s => .value (vis.visitString s)
  | .Pair _ _ => .panicked
  | .List elts =>
    .value
      (match vis.visitSeq elts with
      | .error e => .error e
      | .ok (seq, remaining) =>
        if remaining.length = 0 then .ok seq
        else .error (.invalidLength elts.length ("fewer elements in array")))

/-- `<&Sexp as Deserializer>::deserialize_any` from `sexp/de.rs` (the
borrowing impl): same dispatch over a borrowed value and the borrowing
sequence adapter; the arity check is identical. -/
def deserialize_any_ref (v : SexpMod.Sexp) (vis : Visitor α) : PanicOr (Except DeError α) :=
  match v with
  | .Nil => .value vis.visitUnit
  | .Boolean b => .value (vis.visitBool b)
  | .Number n => .value (vis.visitNumber n)
  | .String s => .value (vis.visitString s)
  | .Keyword k => .value (vis.visitString k)
  | .Symbol s => .value (vis.visitString s)
  | .Pair _ _ => .panicked
  | .List elts =>
    .value
      (match vis.visitSeq elts with
      | .error e => .error e
      | .ok (seq, remaining) =>
        if remaining.length = 0 then .ok seq
        else .error (.invalidLength elts.length ("fewer elements in array")))

/-- The sequence callback generated for a fixed-arity tuple of `k`
elements: consume exactly `k` elements from the front, failing with serde's
`invalid_length` if the sequence is shorter. -/
def tupleVisitSeq (k : Nat) (elems : List SexpMod.Sexp)
    : Except DeError (List SexpMod.Sexp × List SexpMod.Sexp) :=
  if k ≤ elems.length then .ok (elems.take k, elems.drop k)
  else .error (.invalidLength elems.length ("a tuple"))

/-! ## Float encoding: `serializer.rs`, `sexp/ser.rs`, `encode.rs` -/

/-- `Serializer::serialize_f64` from `serializer.rs` (the text-producing
serde serializer): the text appended to the output is exactly
`v.to_string()`. -/
def serialize_f64_text (v : F64) : List Char :=
  v.toChars

/-- `Serializer::serialize_f64` from `sexp/ser.rs` (the tree-building
`to_value` path): `Number::from_f64(value).map_or(List([]), Sexp::F64)` —
a non-finite float becomes the empty list, a finite one a float node. -/
def serialize_f64_value (v : F64) : Sexp :=
  match Number.from_f64 v with
  | some _ => .F64 v
  | none => .List []

/-- `fmt_number_or_null` from `encode.rs`: non-finite floats render as
`null`; finite floats render as `v.to_string()` with `.0` appended when the
text contains no point. -/
def fmt_number_or_null (v : F64) : List Char :=
  match v with
  | .nan => ("null").data
  | .inf => ("null").data
  | .neginf => ("null").data
  | .finite _ _ =>
    let s := v.toChars
    if '.' ∈ s then s else s ++ ['.', '0']

/-! ## Shared helper lemmas -/

/-- Sequencing after a normal return applies the continuation. -/
theorem POut.andThen_ok (a : α) (s : Parser) (f : α → Parser → POut β) :
    (POut.ok a s).andThen f = f a s := rfl

/-- `parse_whitespace` is the identity when the lookahead is not
whitespace, for every amount of fuel. -/
theorem parse_whitespace_nop (n : Nat) (p : Parser)
    (h : ¬(p.ch = some ' ' ∨ p.ch = some '\n' ∨ p.ch = some '\t' ∨ p.ch = some '\r')) :
    p.parse_whitespace n = .ok () p := by
  cases n <;> simp [Parser.parse_whitespace, h]

/-- `bump` returns the raw advance when it does not run into a comment
marker, for every amount of fuel. -/
theorem bumpCom_no_trigger (n : Nat) (p : Parser)
    (h : ¬(p.bumpRaw.config.semi_comments ∧ p.bumpRaw.ch = some ';')) :
    bumpCom n false p = .ok () p.bumpRaw := by
  cases n <;> simp [bumpCom, h]

/-- `parse_comment` never returns once the reader is exhausted with no
lookahead: the loop waits for a newline that can never arrive, so every
fuel amount is exhausted.  This is the non-termination at the heart of
claim C4. -/
theorem parse_comment_spins_at_eof (n : Nat) (p : Parser)
    (h1 : p.reader = []) (h2 : p.ch = none) : bumpCom n true p = .oot := by
  induction n generalizing p with
  | zero => simp [bumpCom, h2]
  | succ k ih =>
    have hb : bumpCom k false p = .ok () p.bumpRaw := by
      cases k <;> simp [bumpCom, Parser.bumpRaw, h1]
    have h2' : p.bumpRaw.ch = none := by simp [Parser.bumpRaw, h1]
    have h1' : p.bumpRaw.reader = [] := by simp [Parser.bumpRaw, h1]
    simp [bumpCom, h2, hb, POut.andThen, ih _ h1' h2']

/-! ## Claims -/

/-- C1, counterexample to the universal round-trip: the pair with absent
cdr is expressible in the grammar (it is the value of `(a . ())`), but its
`Display` rendering `(a)` re-parses as a one-element `List`, a different
value. -/
theorem C1_roundtrip_counterexample :
    (from_str 100 (("(a . ())").data)).res = .ok (.Pair (some (.Symbol ("a"))) none)
    ∧ displayF 100 (Sexp.Pair (some (.Symbol ("a"))) none) = ("(a)").data
    ∧ (from_str 100 (("(a)").data)).res = .ok (.List [.Symbol ("a")])
    ∧ Sexp.List [.Symbol ("a")] ≠ Sexp.Pair (some (.Symbol ("a"))) none :=
  ⟨rfl, rfl, rfl, by simp⟩

/-- C1 (amended): the three concrete inputs of the claim parse and
re-display as exactly the same text, and re-parsing the rendering of each
parsed value yields that value back; the universal quantification over all
expressible values fails (see the counterexample). -/
theorem C1_roundtrip_concrete :
    ((from_str 1000 (("(1 (2 (3 4 a (b) a)))").data)).res =
      .ok (.List [.I64 1, .List [.I64 2,
        .List [.I64 3, .I64 4, .Symbol ("a"), .List [.Symbol ("b")], .Symbol ("a")]]])
    ∧ displayF 1000 (Sexp.List [.I64 1, .List [.I64 2,
        .List [.I64 3, .I64 4, .Symbol ("a"), .List [.Symbol ("b")], .Symbol ("a")]]]) =
      ("(1 (2 (3 4 a (b) a)))").data)
    ∧ ((from_str 1000 (("(a . b)").data)).res =
      .ok (.Pair (some (.Symbol ("a"))) (some (.Symbol ("b"))))
    ∧ displayF 1000 (Sexp.Pair (some (.Symbol ("a"))) (some (.Symbol ("b")))) =
      ("(a . b)").data)
    ∧ ((from_str 1000 (("((a . b) (c . d) (e . 1))").data)).res =
      .ok (.List [.Pair (some (.Symbol ("a"))) (some (.Symbol ("b"))),
        .Pair (some (.Symbol ("c"))) (some (.Symbol ("d"))),
        .Pair (some (.Symbol ("e"))) (some (.I64 1))])
    ∧ displayF 1000 (Sexp.List [.Pair (some (.Symbol ("a"))) (some (.Symbol ("b"))),
        .Pair (some (.Symbol ("c"))) (some (.Symbol ("d"))),
        .Pair (some (.Symbol ("e"))) (some (.I64 1))]) =
      ("((a . b) (c . d) (e . 1))").data) :=
  ⟨⟨rfl, rfl⟩, ⟨rfl, rfl⟩, ⟨rfl, rfl⟩⟩

/-- C2: `new_pair(car, cdr)` always fills the car slot with `car`; the cdr
slot is `None` exactly when `cdr` is a `List` of length zero, and is
`Some cdr` in every other case.  This holds for both copies of the
constructor (`lib.rs` and `sexp/mod.rs`). -/
theorem C2_new_pair :
    (∀ car cdr : Sexp,
      (cdr = .List [] → Sexp.new_pair car cdr = .Pair (some car) none)
      ∧ (cdr ≠ .List [] → Sexp.new_pair car cdr = .Pair (some car) (some cdr)))
    ∧ (∀ car cdr : SexpMod.Sexp,
      (cdr = .List [] → SexpMod.Sexp.new_pair car cdr = .Pair (some car) none)
      ∧ (cdr ≠ .List [] → SexpMod.Sexp.new_pair car cdr = .Pair (some car) (some cdr))) := by
  constructor
  · intro car cdr
    refine ⟨fun h => by subst h; rfl, fun h => ?_⟩
    cases cdr with
    | List elts =>
      cases elts with
      | nil => exact absurd rfl h
      | cons x xs => rfl
    | Symbol s => rfl
    | String s => rfl
    | Keyword s => rfl
    | I64 v => rfl
    | U64 v => rfl
    | F64 f => rfl
    | Boolean b => rfl
    | Pair a d => rfl
  · intro car cdr
    refine ⟨fun h => by subst h; rfl, fun h => ?_⟩
    cases cdr with
    | List elts =>
      cases elts with
      | nil => exact absurd rfl h
      | cons x xs => rfl
    | Nil => rfl
    | Symbol s => rfl
    | String s => rfl
    | Keyword s => rfl
    | Number v => rfl
    | Boolean b => rfl
    | Pair a d => rfl

/-- Witness for C2 at concrete values: an empty-`List` cdr collapses to an
absent cdr slot, any other cdr is stored as given, for both constructor
copies. -/
theorem C2_new_pair_witness :
    Sexp.new_pair (.Symbol ("a")) (.List []) = .Pair (some (.Symbol ("a"))) none
    ∧ Sexp.new_pair (.Symbol ("a")) (.Symbol ("b")) =
      .Pair (some (.Symbol ("a"))) (some (.Symbol ("b")))
    ∧ SexpMod.Sexp.new_pair .Nil (.List []) = .Pair (some .Nil) none
    ∧ SexpMod.Sexp.new_pair .Nil (.Symbol ("b")) = .Pair (some .Nil) (some (.Symbol ("b"))) :=
  ⟨(C2_new_pair.1 (.Symbol ("a")) (.List [])).1 rfl,
    (C2_new_pair.1 (.Symbol ("a")) (.Symbol ("b"))).2 (by simp),
    (C2_new_pair.2 .Nil (.List [])).1 rfl,
    (C2_new_pair.2 .Nil (.Symbol ("b"))).2 (by simp)⟩

/-- C5: contrary to the claim, the end-of-input arm of the non-escape
branch of `parse_string` marked `unreachable!()` is reachable: an input
ending inside a double-quoted string panics (input `"a` with no closing
quote), while end of input in escape position returns the typed error
`UnexpectedEndOfHexEscape` (input `"a\`). -/
theorem C5_string_eof_panics :
    (from_str 100 (("\"a").data)).res = .panicked
    ∧ (from_str 100 (("\"a\\").data)).res =
      .err (.SyntaxError .UnexpectedEndOfHexEscape 1 4) :=
  ⟨rfl, rfl⟩

/-- C10: `car`/`cdr` return `None` on every non-`List` variant (including
`Pair` and `Nil`); on a `List` they return the element at index 0
respectively index 1 (the second element, not the tail), which panics via
out-of-bounds indexing on an empty list respectively a list with fewer
than two elements. -/
theorem C10_car_cdr :
    (SexpMod.Sexp.car .Nil = .value none ∧ SexpMod.Sexp.cdr .Nil = .value none)
    ∧ (∀ s, SexpMod.Sexp.car (.Symbol s) = .value none
        ∧ SexpMod.Sexp.cdr (.Symbol s) = .value none)
    ∧ (∀ s, SexpMod.Sexp.car (.String s) = .value none
        ∧ SexpMod.Sexp.cdr (.String s) = .value none)
    ∧ (∀ s, SexpMod.Sexp.car (.Keyword s) = .value none
        ∧ SexpMod.Sexp.cdr (.Keyword s) = .value none)
    ∧ (∀ x, SexpMod.Sexp.car (.Number x) = .value none
        ∧ SexpMod.Sexp.cdr (.Number x) = .value none)
    ∧ (∀ b, SexpMod.Sexp.car (.Boolean b) = .value none
        ∧ SexpMod.Sexp.cdr (.Boolean b) = .value none)
    ∧ (∀ a d, SexpMod.Sexp.car (.Pair a d) = .value none
        ∧ SexpMod.Sexp.cdr (.Pair a d) = .value none)
    ∧ (∀ x xs, SexpMod.Sexp.car (.List (x :: xs)) = .value (some x))
    ∧ (∀ x y ys, SexpMod.Sexp.cdr (.List (x :: y :: ys)) = .value (some y))
    ∧ (SexpMod.Sexp.car (.List []) = .panicked)
    ∧ (SexpMod.Sexp.cdr (.List []) = .panicked)
    ∧ (∀ x, SexpMod.Sexp.cdr (.List [x]) = .panicked) :=
  ⟨⟨rfl, rfl⟩, fun _ => ⟨rfl, rfl⟩, fun _ => ⟨rfl, rfl⟩, fun _ => ⟨rfl, rfl⟩,
    fun _ => ⟨rfl, rfl⟩, fun _ => ⟨rfl, rfl⟩, fun _ _ => ⟨rfl, rfl⟩,
    fun _ _ => rfl, fun _ _ _ => rfl, rfl, rfl, fun _ => rfl⟩

/-- C4: contrary to the claim, `Parser::parse` does not terminate on every
finite input: on the input `(;` — whose final line is a `;` comment not
terminated by a newline — the comment loop spins at end of stream for every
amount of fuel, i.e. the Rust code loops forever. -/
theorem C4_parse_diverges_on_unterminated_comment :
    ∀ fuel : Nat, (from_str fuel (("(;").data)).res = .oot := by
  intro fuel
  match fuel with
  | 0 => rfl
  | 1 => rfl
  | 2 => rfl
  | (k + 3) =>
    have key : from_str (k + 3) (("(;").data) =
        ((bumpCom k false ⟨[], some ';', 1, 2, STANDARD⟩).andThen
            fun _ s => bumpCom k true s).andThen
          (fun _ s' => Parser.run (k + 2) (.list '(' []) s') := rfl
    rw [key, bumpCom_no_trigger k _ (by decide)]
    simp only [POut.andThen_ok]
    rw [parse_comment_spins_at_eof k _ rfl rfl]
    rfl

/-- C6, counterexample: in dotted-pair mode the closing bracket kind is not
checked, so under the STANDARD configuration `[a . b)` — a list opened with
`[` and closed with `)` — is silently accepted (it parses to the pair),
and `(a . b]` fails with `MissingCloseParen` rather than
`UnbalancedClosingParen`. -/
theorem C6_dotted_bracket_counterexample :
    (from_str 100 (("[a . b)").data)).res =
      .ok (.Pair (some (.Symbol ("a"))) (some (.Symbol ("b"))))
    ∧ (from_str 100 (("(a . b]").data)).res =
      .err (.SyntaxError .MissingCloseParen 1 7) :=
  ⟨rfl, rfl⟩

/-- C6 (amended): outside dotted-pair mode the claim holds — whenever the
`parse_list` loop under the STANDARD configuration sees `]` for a list
opened with `(`, or `)` for a list opened with `[`, it fails with
`UnbalancedClosingParen` at the current position, for every parser state
and accumulated element list; concretely, `(a]` and `[a)` both fail this
way.  In dotted-pair mode the bracket kind is not checked (see the
counterexample). -/
theorem C6_bracket_mismatch :
    (∀ (rd : List Char) (line col : Nat) (res : List Sexp) (n : Nat),
      Parser.run (n + 1) (.list '(' res) ⟨rd, some ']', line, col, STANDARD⟩ =
        .err (.SyntaxError .UnbalancedClosingParen line col)
      ∧ Parser.run (n + 1) (.list '[' res) ⟨rd, some ')', line, col, STANDARD⟩ =
        .err (.SyntaxError .UnbalancedClosingParen line col))
    ∧ (from_str 100 (("(a]").data)).res = .err (.SyntaxError .UnbalancedClosingParen 1 3)
    ∧ (from_str 100 (("[a)").data)).res = .err (.SyntaxError .UnbalancedClosingParen 1 3) := by
  refine ⟨fun rd line col res n => ⟨?_, ?_⟩, rfl, rfl⟩ <;>
    · simp only [Parser.run]
      rw [parse_whitespace_nop _ _ (by simp)]
      rfl

/-- C3, counterexample: with two elements before the dot, the parse of
`(a b . c)` succeeds and returns `new_pair(result[0], result[1])`, i.e. the
pair `(a . b)` — not `new_pair` of the element before the dot and the value
after it, which would be `(b . c)`. -/
theorem C3_dotted_counterexample :
    (from_str 100 (("(a b . c)").data)).res =
      .ok (.Pair (some (.Symbol ("a"))) (some (.Symbol ("b"))))
    ∧ Sexp.new_pair (.Symbol ("b")) (.Symbol ("c")) =
      .Pair (some (.Symbol ("b"))) (some (.Symbol ("c")))
    ∧ Sexp.Pair (some (.Symbol ("a"))) (some (.Symbol ("b"))) ≠
      Sexp.Pair (some (.Symbol ("b"))) (some (.Symbol ("c"))) :=
  ⟨rfl, rfl, by simp⟩

/-- C3 (amended): a literal `.` in list position parses exactly one further
value; if the lookahead is then literally `)`, the result is `new_pair` of
the first two collected elements — which equals `new_pair` of the element
before the dot and the value after it exactly when a single element
preceded the dot, and panics via out-of-bounds indexing when no element
preceded it — and with any other lookahead the parse fails with
`MissingCloseParen`. -/
theorem C3_dotted_mode (n : Nat) (op : Char) (rd : List Char) (line col : Nat)
    (cfg : ParseConfig) (p₁ p₂ p₃ : Parser) (res : List Sexp) (v : Sexp)
    (hb : Parser.bump n ⟨rd, some '.', line, col, cfg⟩ = .ok () p₁)
    (hv : Parser.run n .value p₁ = .ok v p₂) :
    (p₂.ch = some ')' → p₂.bump n = .ok () p₃ → res ≠ [] →
      Parser.run (n + 1) (.list op res) ⟨rd, some '.', line, col, cfg⟩ =
        .ok (Sexp.new_pair ((res ++ [v]).getD 0 (.List []))
          ((res ++ [v]).getD 1 (.List []))) p₃)
    ∧ (p₂.ch = some ')' → p₂.bump n = .ok () p₃ → ∀ e, res = [e] →
      Parser.run (n + 1) (.list op res) ⟨rd, some '.', line, col, cfg⟩ =
        .ok (Sexp.new_pair e v) p₃)
    ∧ (p₂.ch = some ')' → p₂.bump n = .ok () p₃ → res = [] →
      Parser.run (n + 1) (.list op res) ⟨rd, some '.', line, col, cfg⟩ = .panicked)
    ∧ (p₂.ch ≠ some ')' →
      Parser.run (n + 1) (.list op res) ⟨rd, some '.', line, col, cfg⟩ =
        .err (.SyntaxError .MissingCloseParen p₂.line p₂.col)) := by
  have base : Parser.run (n + 1) (.list op res) ⟨rd, some '.', line, col, cfg⟩ =
      (match p₂.ch with
      | some ')' =>
        (p₂.bump n).andThen fun _ s₃ =>
          if 2 ≤ (res ++ [v]).length then
            .ok (Sexp.new_pair ((res ++ [v]).getD 0 (.List []))
              ((res ++ [v]).getD 1 (.List []))) s₃
          else .panicked
      | _ => .err (.SyntaxError .MissingCloseParen p₂.line p₂.col)) := by
    simp only [Parser.run]
    rw [parse_whitespace_nop _ _ (by simp), POut.andThen_ok]
    show (Parser.bump n ⟨rd, some '.', line, col, cfg⟩).andThen _ = _
    rw [hb, POut.andThen_ok]
    show (Parser.run n .value p₁).andThen _ = _
    rw [hv, POut.andThen_ok]
  have hA : p₂.ch = some ')' → p₂.bump n = .ok () p₃ → res ≠ [] →
      Parser.run (n + 1) (.list op res) ⟨rd, some '.', line, col, cfg⟩ =
        .ok (Sexp.new_pair ((res ++ [v]).getD 0 (.List []))
          ((res ++ [v]).getD 1 (.List []))) p₃ := by
    intro h₀ hb' hne
    rw [base, h₀]
    show (p₂.bump n).andThen _ = _
    rw [hb', POut.andThen_ok]
    show (if 2 ≤ (res ++ [v]).length then
        POut.ok (Sexp.new_pair ((res ++ [v]).getD 0 (.List []))
          ((res ++ [v]).getD 1 (.List []))) p₃
      else POut.panicked) = _
    rw [if_pos]
    have := List.length_pos.mpr hne
    simp only [List.length_append, List.length_cons, List.length_nil]
    omega
  refine ⟨hA, ?_, ?_, ?_⟩
  · intro h₀ hb' e hres
    subst hres
    exact hA h₀ hb' (by simp)
  · intro h₀ hb' hres
    subst hres
    rw [base, h₀]
    show (p₂.bump n).andThen _ = _
    rw [hb', POut.andThen_ok]
    show (if 2 ≤ ([] ++ [v] : List Sexp).length then
        POut.ok (Sexp.new_pair (([] ++ [v] : List Sexp).getD 0 (.List []))
          (([] ++ [v] : List Sexp).getD 1 (.List []))) p₃
      else POut.panicked) = _
    rw [if_neg (by simp)]
  · intro hne
    rw [base]
    split
    · exact absurd (by assumption) hne
    · rfl

/-- Witness for C3: a concrete dotted-mode step.  Mid-parse at the `.` of
`(a . x)` with element `a` already collected, the parse of the remaining
`x)` succeeds, the lookahead is `)`, and the iteration returns
`new_pair(a, x)` with the stream consumed. -/
theorem C3_dotted_mode_witness :
    Parser.run 51 (.list '(' [.Symbol ("a")]) ⟨("x)").data, some '.', 1, 5, STANDARD⟩ =
      .ok (Sexp.new_pair (.Symbol ("a")) (.Symbol ("x"))) ⟨[], none, 1, 8, STANDARD⟩ :=
  (C3_dotted_mode 50 '(' (("x)").data) 1 5 STANDARD
    ⟨(")").data, some 'x', 1, 6, STANDARD⟩
    ⟨[], some ')', 1, 7, STANDARD⟩
    ⟨[], none, 1, 8, STANDARD⟩
    [.Symbol ("a")] (.Symbol ("x")) rfl rfl).2.1 rfl rfl (.Symbol ("a")) rfl

/-- C7: `from_f64` succeeds exactly on finite floats; the signed-integer
conversion picks the signed arm exactly for negative values and the
unsigned arm for zero and positive values; and the three predicates agree
with the construction rules (`is_i64` holds exactly for `U64` payloads at
most `i64::MAX` and for every `I64` payload, `is_u64` exactly for `U64`,
`is_f64` exactly for `F64`). -/
theorem C7_number_invariants :
    (∀ f : F64, (Number.from_f64 f).isSome = f.isFinite)
    ∧ (∀ i : Int,
        (i < 0 → Number.from_i64 i = ⟨.I64 i⟩)
        ∧ (0 ≤ i → Number.from_i64 i = ⟨.U64 i.toNat⟩))
    ∧ (∀ x : Number,
        (x.is_i64 = true ↔ ((∃ v, x.n = .U64 v ∧ v ≤ i64MaxNat) ∨ ∃ v, x.n = .I64 v))
        ∧ (x.is_u64 = true ↔ ∃ v, x.n = .U64 v)
        ∧ (x.is_f64 = true ↔ ∃ f, x.n = .F64 f)) := by
  refine ⟨?_, ?_, ?_⟩
  · intro f
    cases f <;> rfl
  · intro i
    refine ⟨fun h => ?_, fun h => ?_⟩
    · simp [Number.from_i64, h]
    · simp [Number.from_i64, not_lt.mpr h]
  · rintro ⟨nn⟩
    cases nn with
    | U64 v =>
      exact ⟨by simp [Number.is_i64], by simp [Number.is_u64], by simp [Number.is_f64]⟩
    | I64 v =>
      exact ⟨by simp [Number.is_i64], by simp [Number.is_u64], by simp [Number.is_f64]⟩
    | F64 f =>
      exact ⟨by simp [Number.is_i64], by simp [Number.is_u64], by simp [Number.is_f64]⟩

/-- Witness for C7 at concrete values: `NaN`, `-5`, `7`, and a small
unsigned payload. -/
theorem C7_number_invariants_witness :
    (Number.from_f64 F64.nan).isSome = F64.nan.isFinite
    ∧ Number.from_i64 (-5) = ⟨.I64 (-5)⟩
    ∧ Number.from_i64 7 = ⟨.U64 (Int.toNat 7)⟩
    ∧ ((Number.mk (.U64 3)).is_u64 = true ↔ ∃ v, (Number.mk (.U64 3)).n = .U64 v) :=
  ⟨C7_number_invariants.1 F64.nan,
    (C7_number_invariants.2.1 (-5)).1 (by decide),
    (C7_number_invariants.2.1 7).2 (by decide),
    (C7_number_invariants.2.2 ⟨.U64 3⟩).2.1⟩

/-- The visitor generated for a fixed-arity tuple of `k` elements: its
sequence callback is `tupleVisitSeq k`, and every non-sequence shape is an
error. -/
def tupleVisitor (k : Nat) : Visitor (List SexpMod.Sexp) where
  visitUnit := .error (.message ("unsupported"))
  visitBool := fun _ => .error (.message ("unsupported"))
  visitString := fun _ => .error (.message ("unsupported"))
  visitNumber := fun _ => .error (.message ("unsupported"))
  visitSeq := fun elems => tupleVisitSeq k elems

/-- C8: on a `List`, after the driven visitor returns, both the owning and
the borrowing `deserialize_any` check that every element was consumed and
fail with `invalid_length` naming the original list length when elements
remain; in particular a fixed-arity tuple visitor applied to a longer list
errors rather than silently truncating. -/
theorem C8_arity_check :
    (∀ (α : Type) (vis : Visitor α) (elts : List SexpMod.Sexp) (a : α)
        (c : SexpMod.Sexp) (rest : List SexpMod.Sexp),
      vis.visitSeq elts = .ok (a, c :: rest) →
        deserialize_any (.List elts) vis =
          .value (.error (.invalidLength elts.length ("fewer elements in array")))
        ∧ deserialize_any_ref (.List elts) vis =
          .value (.error (.invalidLength elts.length ("fewer elements in array"))))
    ∧ (∀ (k : Nat) (elts : List SexpMod.Sexp), k < elts.length →
        deserialize_any (.List elts) (tupleVisitor k) =
          .value (.error (.invalidLength elts.length ("fewer elements in array")))
        ∧ deserialize_any_ref (.List elts) (tupleVisitor k) =
          .value (.error (.invalidLength elts.length ("fewer elements in array")))) := by
  have main : ∀ (α : Type) (vis : Visitor α) (elts : List SexpMod.Sexp) (a : α)
      (c : SexpMod.Sexp) (rest : List SexpMod.Sexp),
      vis.visitSeq elts = .ok (a, c :: rest) →
        deserialize_any (.List elts) vis =
          .value (.error (.invalidLength elts.length ("fewer elements in array")))
        ∧ deserialize_any_ref (.List elts) vis =
          .value (.error (.invalidLength elts.length ("fewer elements in array"))) := by
    intro α vis elts a c rest h
    constructor <;> simp [deserialize_any, deserialize_any_ref, h]
  refine ⟨main, ?_⟩
  intro k elts hk
  have hseq : (tupleVisitor k).visitSeq elts = .ok (elts.take k, elts.drop k) := by
    simp [tupleVisitor, tupleVisitSeq, Nat.le_of_lt hk]
  cases hd : elts.drop k with
  | nil =>
    exfalso
    have hlen := congrArg List.length hd
    simp [List.length_drop] at hlen
    omega
  | cons c rest =>
    exact main _ _ _ _ _ _ (by rw [hseq, hd])

/-- Witness for C8: a 2-tuple visitor over a three-element list fails with
`invalid_length 3` on both adapters. -/
theorem C8_arity_check_witness :
    deserialize_any (.List [.Nil, .Nil, .Nil]) (tupleVisitor 2) =
      .value (.error (.invalidLength 3 ("fewer elements in array")))
    ∧ deserialize_any_ref (.List [.Nil, .Nil, .Nil]) (tupleVisitor 2) =
      .value (.error (.invalidLength 3 ("fewer elements in array"))) :=
  C8_arity_check.2 2 [.Nil, .Nil, .Nil] (by decide)

/-- C9, counterexample: the serde text serializer renders `NaN` as `NaN`,
not as `()`, and renders `1.0` as `1` with no forced trailing `.0` —
refuting the claim for the `serialize_f64` text path. -/
theorem C9_float_text_counterexample :
    serialize_f64_text F64.nan = ("NaN").data
    ∧ ("NaN").data ≠ ("()").data
    ∧ serialize_f64_text (F64.finite 1 0) = ("1").data
    ∧ ("1").data ≠ ("1.0").data :=
  ⟨rfl, by decide, rfl, by decide⟩

/-- C9 (amended): the `.0`-forcing and the null rendering of non-finite
floats belong to the legacy `fmt_number_or_null` encoder (which renders
non-finite floats as `null`, not `()`); the `to_value` tree path maps
non-finite floats to the empty list — whose `Display` rendering is `()` —
and finite floats to a float node; the serde text path renders
`v.to_string()` unchanged, producing `NaN` for `NaN`. -/
theorem C9_float_encoding :
    (∀ v : F64, v.isFinite = false → fmt_number_or_null v = ("null").data)
    ∧ (∀ v : F64, v.isFinite = true → '.' ∈ fmt_number_or_null v)
    ∧ (∀ v : F64, v.isFinite = false → serialize_f64_value v = .List [])
    ∧ (∀ v : F64, v.isFinite = true → serialize_f64_value v = .F64 v)
    ∧ displayF 10 (.List []) = ("()").data
    ∧ serialize_f64_text F64.nan = ("NaN").data := by
  refine ⟨?_, ?_, ?_, ?_, rfl, rfl⟩
  · intro v h
    cases v <;> first | rfl | simp [F64.isFinite] at h
  · intro v h
    cases v with
    | nan => simp [F64.isFinite] at h
    | inf => simp [F64.isFinite] at h
    | neginf => simp [F64.isFinite] at h
    | finite m e =>
      simp only [fmt_number_or_null]
      split
      · assumption
      · simp
  · intro v h
    cases v <;> first | rfl | simp [F64.isFinite] at h
  · intro v h
    cases v <;> first | rfl | simp [F64.isFinite] at h

/-- Witness for C9 at concrete values: `∞` and the finite float `3.0`. -/
theorem C9_float_encoding_witness :
    fmt_number_or_null F64.inf = ("null").data
    ∧ '.' ∈ fmt_number_or_null (F64.finite 3 0)
    ∧ serialize_f64_value F64.inf = .List []
    ∧ serialize_f64_value (F64.finite 3 0) = .F64 (F64.finite 3 0) :=
  ⟨C9_float_encoding.1 F64.inf rfl,
    C9_float_encoding.2.1 (F64.finite 3 0) rfl,
    C9_float_encoding.2.2.1 F64.inf rfl,
    C9_float_encoding.2.2.2.1 (F64.finite 3 0) rfl⟩

end Sexpr
